import Mathlib

/-!
Formal model of the authentication and session-lifecycle subsystem of the
chirps backend (source files `src/auth.rs`, `src/queries.rs`, `src/api.rs`).

Modelling conventions:
* Timestamps (`OffsetDateTime`, JWT `exp`/`iat` seconds) are `Int` seconds
  since the Unix epoch; `Duration::hours(1)` is `3600`, `INTERVAL '60 days'`
  is `5184000`.
* `Uuid` is a natural number; `Uuid::to_string` / `Uuid::try_parse` are
  modelled as an injective decimal rendering with its partial inverse.
* The HMAC signature of the `jsonwebtoken` library is symbolic: a token
  carries the secret it was signed with, and signature verification is
  equality of secrets.  The password hash of `password_auth` is symbolic in
  the same way.
* The Postgres store is a `List` of rows; `fetch_one` returning
  `RowNotFound` is the `none` branch of a lookup.  Store failures that do
  not depend on the data (connection loss, unique-key collision) and the
  fallibility of `jsonwebtoken::encode` are injected as explicit boolean
  outcome parameters.
-/

namespace Chirpy

/-- Seconds since the Unix epoch; models `time::OffsetDateTime` and the
`u64` second counts inside JWT claims. -/
abbrev Timestamp := Int

/-- `uuid::Uuid`, modelled as a natural number. -/
abbrev Uuid := Nat

/-- Value of the decimal digit character `c` (only meaningful on `'0'`-`'9'`). -/
def charToDigitVal (c : Char) : Nat := c.toNat - 48

/-- Models `Uuid::to_string`: an injective textual rendering of a uuid
(decimal digits, most significant first). -/
def Uuid.render (u : Uuid) : String :=
  if u = 0 then "0" else String.mk ((Nat.digits 10 u).reverse.map Nat.digitChar)

/-- Models `Uuid::try_parse`: the partial inverse of `Uuid.render`, failing
on any string that is not a rendering of a uuid. -/
def Uuid.try_parse (s : String) : Option Uuid :=
  if s.data ≠ [] ∧ s.data.all Char.isDigit then
    some (Nat.ofDigits 10 ((s.data.map charToDigitVal).reverse))
  else none

/-- Lowercase hex rendering of `n` with no padding; models Rust's
`format!("{:x}", n)` (so `0` renders as `"0"` and there are no leading
zeros). -/
def lowerHex (n : Nat) : String :=
  if n = 0 then "0" else String.mk ((Nat.digits 16 n).reverse.map Nat.digitChar)

/-- `auth.rs`: `make_refresh_token`.  Two `u128` values are drawn from the
random source and rendered as `format!("{:x}{:x}", bits.0, bits.1)`; the
draw `(a, b)` (each below `2^128`) is the function's input here. -/
def make_refresh_token (a b : Nat) : String :=
  lowerHex a ++ lowerHex b

/-- A character is a lowercase hex digit. -/
def isHexDigitChar (c : Char) : Bool :=
  (decide ('0' ≤ c) && decide (c ≤ '9')) || (decide ('a' ≤ c) && decide (c ≤ 'f'))

/-- JWT signing algorithm of the token header. -/
inductive Alg
  | HS256
  | other
deriving DecidableEq

/-- `auth.rs`: `JwtClaims` (`exp`, `iss`, `iat`, `sub`). -/
structure JwtClaims where
  exp : Timestamp
  iss : String
  iat : Timestamp
  sub : String
deriving DecidableEq

/-- A JWT as seen by the verifier: header algorithm, the four claims (each
possibly absent in an arbitrary token), and, symbolically, the secret the
token's MAC was produced with. -/
structure JwtToken where
  alg : Alg
  exp : Option Timestamp
  iss : Option String
  iat : Option Timestamp
  sub : Option String
  mac_secret : String
deriving DecidableEq

/-- Failure cases of `jsonwebtoken::decode` together with the invalid-uuid
subject failure of `decode_user`; `api.rs` collapses all of them into a 401. -/
inductive JwtError
  | invalidAlg
  | invalidSig
  | missingClaim
  | expiredSig
  | invalidIss
  | invalidSubj
deriving DecidableEq

/-- `auth.rs`: `JwtKey` — the secret plus the `Validation` policy fields set
in `impl From<String> for JwtKey`. -/
structure JwtKey where
  secret : String
  algorithms : List Alg
  issuers : List String
  required_claims : List String
deriving DecidableEq

/-- `auth.rs`: `impl From<String> for JwtKey` — `Validation::new(HS256)`,
`set_issuer(["Chirpy"])`, `set_required_spec_claims(["exp","iss","iat","sub"])`. -/
def JwtKey.fromSecret (secret : String) : JwtKey :=
  { secret := secret
    algorithms := [Alg.HS256]
    issuers := ["Chirpy"]
    required_claims := ["exp", "iss", "iat", "sub"] }

/-- `auth.rs`: `JwtKey::encode_user` — claims built with `exp = now +
expires_in`, `iss = "Chirpy"`, `iat = now`, `sub = user_id.to_string()`,
signed (symbolically) with the key's secret under the default HS256 header. -/
def JwtKey.encode_user (key : JwtKey) (user_id : Uuid) (expires_in : Int)
    (now : Timestamp) : JwtToken :=
  { alg := Alg.HS256
    exp := some (now + expires_in)
    iss := some "Chirpy"
    iat := some now
    sub := some (Uuid.render user_id)
    mac_secret := key.secret }

/-- Whether the token carries the claim with the given JWT claim name. -/
def JwtToken.hasClaim (t : JwtToken) (claim_name : String) : Bool :=
  match claim_name with
  | "exp" => t.exp.isSome
  | "iss" => t.iss.isSome
  | "iat" => t.iat.isSome
  | "sub" => t.sub.isSome
  | _ => false

/-- `auth.rs`: `JwtKey::decode` — `jsonwebtoken::decode` under the key's
`Validation`: the header algorithm must be allowed, the MAC must verify
(symbolically: secrets equal), the required claims must be present, the
token must not be expired (`exp ≤ now` fails), and the issuer must match. -/
def JwtKey.decode (key : JwtKey) (now : Timestamp) (t : JwtToken) :
    Except JwtError JwtClaims :=
  if t.alg ∉ key.algorithms then .error .invalidAlg
  else if t.mac_secret ≠ key.secret then .error .invalidSig
  else if ¬ key.required_claims.all t.hasClaim = true then .error .missingClaim
  else
    match t.exp, t.iss, t.iat, t.sub with
    | some exp, some iss, some iat, some sub =>
      if exp ≤ now then .error .expiredSig
      else if iss ∉ key.issuers then .error .invalidIss
      else .ok { exp := exp, iss := iss, iat := iat, sub := sub }
    | _, _, _, _ => .error .missingClaim

/-- `auth.rs`: `JwtKey::decode_user` — `decode`, then `Uuid::try_parse` on
the subject claim. -/
def JwtKey.decode_user (key : JwtKey) (now : Timestamp) (t : JwtToken) :
    Except JwtError Uuid :=
  match key.decode now t with
  | .error e => .error e
  | .ok claims =>
    match Uuid.try_parse claims.sub with
    | some u => .ok u
    | none => .error .invalidSubj

/-- `queries.rs`: the `users` row. -/
structure User where
  id : Uuid
  created_at : Option Timestamp
  updated_at : Option Timestamp
  email : String
  hashed_password : String
  is_chirpy_red : Bool
deriving DecidableEq

/-- Symbolic `password_auth::generate_hash`: an injective one-way map. -/
def generate_hash (password : String) : String :=
  "argon2id$" ++ password

/-- `queries.rs`: `User::verify` — `password_auth::verify_password` of the
candidate against the stored hash, modelled as hash equality. -/
def User.verify (u : User) (password : String) : Bool :=
  u.hashed_password == generate_hash password

/-- Error values surfaced by the modelled handlers: the eyre messages of
`api.rs` and the sqlx `RowNotFound` of a failed `fetch_one`. -/
inductive ApiError
  | missingAuthHeader
  | headerNotText
  | malformedAuthHeader
  | rowNotFound
  | storeFailure
  | ensureFailed (msg : String)
deriving DecidableEq

/-- `queries.rs`: `get_user_by_email` — `SELECT * FROM users WHERE email =
$1` with `fetch_one`. -/
def get_user_by_email (users : List User) (email : String) : Except ApiError User :=
  match users.find? (fun u => u.email == email) with
  | some u => .ok u
  | none => .error .rowNotFound

/-- `queries.rs`: `make_user_red` — `UPDATE users SET is_chirpy_red = true
WHERE id = $1 RETURNING *` with `fetch_one`. -/
def make_user_red (users : List User) (user_id : Uuid) :
    Except ApiError (User × List User) :=
  let users' := users.map (fun u =>
    if u.id == user_id then { u with is_chirpy_red := true } else u)
  match users'.find? (fun u => u.id == user_id) with
  | some u => .ok (u, users')
  | none => .error .rowNotFound

/-- `queries.rs`: the `refresh_tokens` row (`RefreshTokenEntry`). -/
structure RefreshTokenEntry where
  token : String
  created_at : Timestamp
  updated_at : Timestamp
  user_id : Uuid
  expires_at : Timestamp
  revoked_at : Option Timestamp
deriving DecidableEq

/-- The refresh-token store: the `refresh_tokens` table. -/
abbrev RefreshStore := List RefreshTokenEntry

/-- `queries.rs`: `new_refresh_token` — draws a token value with
`make_refresh_token` and inserts a row with `created_at = updated_at = NOW()`,
`expires_at = NOW() + INTERVAL '60 days'`, `revoked_at = NULL`.
`insert_fails` injects a store failure (connection loss or a unique-key
collision), in which case nothing is inserted. -/
def new_refresh_token (db : RefreshStore) (user : User) (rand_a rand_b : Nat)
    (now : Timestamp) (insert_fails : Bool) :
    Except ApiError (RefreshTokenEntry × RefreshStore) :=
  if insert_fails then .error .storeFailure
  else
    let entry : RefreshTokenEntry :=
      { token := make_refresh_token rand_a rand_b
        created_at := now
        updated_at := now
        user_id := user.id
        expires_at := now + 5184000
        revoked_at := none }
    .ok (entry, db ++ [entry])

/-- `queries.rs`: `get_refresh_token_entry` — `SELECT * FROM refresh_tokens
WHERE token = $1` with `fetch_one`. -/
def get_refresh_token_entry (db : RefreshStore) (token : String) :
    Except ApiError RefreshTokenEntry :=
  match db.find? (fun e => e.token == token) with
  | some e => .ok e
  | none => .error .rowNotFound

/-- `queries.rs`: `revoke_refresh_token` — `UPDATE refresh_tokens SET
updated_at = NOW(), revoked_at = NOW() WHERE token = $1 RETURNING *` with
`fetch_one` (so it errors when no row matches). -/
def revoke_refresh_token (db : RefreshStore) (token : String) (now : Timestamp) :
    Except ApiError (RefreshTokenEntry × RefreshStore) :=
  let db' := db.map (fun e =>
    if e.token == token then { e with updated_at := now, revoked_at := some now } else e)
  match db'.find? (fun e => e.token == token) with
  | some e => .ok (e, db')
  | none => .error .rowNotFound

/-- An HTTP header value: valid visible text, or bytes `HeaderValue::to_str`
rejects. -/
inductive HeaderValue
  | text (s : String)
  | binary
deriving DecidableEq

/-- The request headers, restricted to the one header the modelled code
reads: `AUTHORIZATION`. -/
structure HeaderMap where
  authorization : Option HeaderValue
deriving DecidableEq

/-- `api.rs`: `extract_bearer_token` — require the `AUTHORIZATION` header,
require it to be valid text, and `strip_prefix("Bearer ")`. -/
def extract_bearer_token (headers : HeaderMap) : Except ApiError String :=
  match headers.authorization with
  | none => .error .missingAuthHeader
  | some .binary => .error .headerNotText
  | some (.text s) =>
    if "Bearer ".data.isPrefixOf s.data then
      .ok (String.mk (s.data.drop "Bearer ".data.length))
    else .error .malformedAuthHeader

/-- `api.rs`: `authorize_user_refresh_token` — extract the bearer token,
look the entry up, then run the two `ensure!` checks exactly as written in
the source: `ensure!(token_entry.expires_at < current_time, "token has
expired")` and, when `revoked_at` is set, `ensure!(revoked_at <
current_time, "token was revoked")` (`ensure!` fails when its condition is
false). -/
def authorize_user_refresh_token (db : RefreshStore) (headers : HeaderMap)
    (now : Timestamp) : Except ApiError RefreshTokenEntry :=
  match extract_bearer_token headers with
  | .error e => .error e
  | .ok token =>
    match get_refresh_token_entry db token with
    | .error e => .error e
    | .ok entry =>
      if ¬ entry.expires_at < now then .error (.ensureFailed "token has expired")
      else
        match entry.revoked_at with
        | some revoked_at =>
          if ¬ revoked_at < now then .error (.ensureFailed "token was revoked")
          else .ok entry
        | none => .ok entry

/-- Outcome of the `refresh` handler: 200 with a fresh access token, 401, or
500 when `encode_user` fails. -/
inductive RefreshReply
  | success (jwt : JwtToken)
  | unauthorized
  | internalServerError
deriving DecidableEq

/-- Models the fallibility of `jsonwebtoken::encode` (an external-library
`Result`): the injected `encode_fails` outcome selects the error branch. -/
def encode_user_result (key : JwtKey) (user_id : Uuid) (expires_in : Int)
    (now : Timestamp) (encode_fails : Bool) : Except ApiError JwtToken :=
  if encode_fails then .error .storeFailure
  else .ok (key.encode_user user_id expires_in now)

/-- `api.rs`: the `refresh` handler — 401 unless
`authorize_user_refresh_token` succeeds, then a fresh 1-hour access token
for the entry's user id (500 if encoding fails). -/
def refresh (db : RefreshStore) (key : JwtKey) (headers : HeaderMap)
    (now : Timestamp) (encode_fails : Bool) : RefreshReply :=
  match authorize_user_refresh_token db headers now with
  | .error _ => .unauthorized
  | .ok entry =>
    match encode_user_result key entry.user_id 3600 now encode_fails with
    | .error _ => .internalServerError
    | .ok jwt => .success jwt

/-- `api.rs`: the `revoke` handler — 401 on a malformed header, 404 when the
row update finds nothing, 204 otherwise; returns the status and the store
after the update. -/
def revoke (db : RefreshStore) (headers : HeaderMap) (now : Timestamp) :
    Nat × RefreshStore :=
  match extract_bearer_token headers with
  | .error _ => (401, db)
  | .ok token =>
    match revoke_refresh_token db token now with
    | .error _ => (404, db)
    | .ok (_, db') => (204, db')

/-- `api.rs`: `LoginPayload` — the deserialized login request body. -/
structure LoginPayload where
  email : String
  password : String
deriving DecidableEq

/-- The login request JSON as sent by a caller, which may carry an
`expires_in_seconds` field. -/
structure LoginRequestJson where
  email : String
  password : String
  expires_in_seconds : Option Int
deriving DecidableEq

/-- Serde deserialization of the request body into `LoginPayload`: the
struct declares only `email` and `password`, so a caller-supplied
`expires_in_seconds` field is dropped. -/
def parse_login_payload (j : LoginRequestJson) : LoginPayload :=
  { email := j.email, password := j.password }

/-- Outcome of the `login` handler: 200 with the user, the access token and
the refresh token value, or a status code with a plain body. -/
inductive LoginReply
  | success (user : User) (jwt : JwtToken) (refresh_token : String)
  | failure (status : Nat) (body : String)
deriving DecidableEq

/-- `api.rs`: the `login` handler.  `expires_in` is fixed to
`Duration::hours(1)`; on a missing user or failed verification the single
`error_response` (401, "Incorrect email or password") is returned; on
success both `new_refresh_token` and `encode_user` run, and unless both
succeed the same `error_response` is returned.  Returns the reply and the
refresh-token store after the call. -/
def login (users : List User) (db : RefreshStore) (key : JwtKey)
    (now : Timestamp) (payload : LoginPayload) (rand_a rand_b : Nat)
    (insert_fails encode_fails : Bool) : LoginReply × RefreshStore :=
  let expires_in : Int := 3600
  let error_response := LoginReply.failure 401 "Incorrect email or password"
  match get_user_by_email users payload.email with
  | .error _ => (error_response, db)
  | .ok user =>
    if user.verify payload.password then
      match new_refresh_token db user rand_a rand_b now insert_fails,
            encode_user_result key user.id expires_in now encode_fails with
      | .ok (entry, db'), .ok jwt => (.success user jwt entry.token, db')
      | .ok (_, db'), .error _ => (error_response, db')
      | .error _, _ => (error_response, db)
    else (error_response, db)

/-- `api.rs`: `PolkaData`. -/
structure PolkaData where
  user_id : Uuid
deriving DecidableEq

/-- `api.rs`: `PolkaReq`. -/
structure PolkaReq where
  event : String
  data : PolkaData
deriving DecidableEq

/-- `api.rs`: the `polka_webhook` handler.  `authorized` is the outcome of
`PolkaAPIKey::request_authorized` (whose body is not among the provided
sources; the handler only branches on its boolean result): 401 when false,
204 without touching the store when the event is not `"user.upgraded"`,
otherwise `make_user_red` (404 when that finds no user).  Returns the status
and the users table after the call. -/
def polka_webhook (users : List User) (authorized : Bool) (req : PolkaReq) :
    Nat × List User :=
  if ¬ authorized then (401, users)
  else if req.event ≠ "user.upgraded" then (204, users)
  else
    match make_user_red users req.data.user_id with
    | .ok (_, users') => (204, users')
    | .error _ => (404, users)

/-- A sample user for concrete evaluations (uuid 0, password `"pw"`). -/
def sampleUser : User :=
  { id := 0
    created_at := none
    updated_at := none
    email := "alice@example.com"
    hashed_password := generate_hash "pw"
    is_chirpy_red := false }

/-- A freshly issued refresh-token entry: created at time 0, 60-day expiry,
never revoked. -/
def sampleEntry : RefreshTokenEntry :=
  { token := "rt1"
    created_at := 0
    updated_at := 0
    user_id := 0
    expires_at := 5184000
    revoked_at := none }

/-- A refresh-token entry expiring at time 100, used to exercise the
revoke-then-refresh sequence. -/
def sampleEntry2 : RefreshTokenEntry :=
  { token := "rt2"
    created_at := 0
    updated_at := 0
    user_id := 0
    expires_at := 100
    revoked_at := none }

/-- `sampleEntry2` as updated by `revoke_refresh_token` at time 50. -/
def sampleEntry2Revoked : RefreshTokenEntry :=
  { token := "rt2"
    created_at := 0
    updated_at := 50
    user_id := 0
    expires_at := 100
    revoked_at := some 50 }

/-!
## Theorems

Helper lemmas first, then one theorem per claim (with witnesses for the
theorems that carry hypotheses).
-/

theorem digitChar_isDigit {d : Nat} (h : d < 10) : (Nat.digitChar d).isDigit = true := by
  interval_cases d <;> rfl

theorem charToDigitVal_digitChar {d : Nat} (h : d < 10) :
    charToDigitVal (Nat.digitChar d) = d := by
  interval_cases d <;> rfl

theorem isHexDigitChar_digitChar {d : Nat} (h : d < 16) :
    isHexDigitChar (Nat.digitChar d) = true := by
  interval_cases d <;> rfl

theorem Uuid.try_parse_render (u : Uuid) : Uuid.try_parse (Uuid.render u) = some u := by
  by_cases h0 : u = 0
  · subst h0; decide
  · have hne : Nat.digits 10 u ≠ [] := Nat.digits_ne_nil_iff_ne_zero.mpr h0
    have hlt : ∀ d ∈ Nat.digits 10 u, d < 10 :=
      fun d hd => Nat.digits_lt_base (by norm_num) hd
    rw [Uuid.render, if_neg h0, Uuid.try_parse]
    rw [if_pos]
    · congr 1
      rw [show (String.mk ((Nat.digits 10 u).reverse.map Nat.digitChar)).data
            = (Nat.digits 10 u).reverse.map Nat.digitChar from rfl]
      rw [List.map_map]
      rw [List.map_congr_left (g := id) (fun d hd => by
        exact charToDigitVal_digitChar (hlt d (List.mem_reverse.mp hd)))]
      rw [List.map_id, List.reverse_reverse, Nat.ofDigits_digits]
    · constructor
      · simp [hne]
      · rw [List.all_eq_true]
        intro c hc
        rcases List.mem_map.mp (by simpa using hc) with ⟨d, hd, rfl⟩
        exact digitChar_isDigit (hlt d hd)

theorem lowerHex_all_hex (n : Nat) : (lowerHex n).data.all isHexDigitChar = true := by
  by_cases h0 : n = 0
  · subst h0; rfl
  · rw [lowerHex, if_neg h0]
    rw [List.all_eq_true]
    intro c hc
    rcases List.mem_map.mp (by simpa using hc) with ⟨d, hd, rfl⟩
    exact isHexDigitChar_digitChar (Nat.digits_lt_base (by norm_num) hd)

theorem lowerHex_length_pos (n : Nat) : 1 ≤ (lowerHex n).length := by
  by_cases h0 : n = 0
  · subst h0; decide
  · rw [lowerHex, if_neg h0]
    have hne : Nat.digits 16 n ≠ [] := Nat.digits_ne_nil_iff_ne_zero.mpr h0
    have : 0 < (Nat.digits 16 n).length := List.length_pos.mpr hne
    simpa [String.length] using this

theorem lowerHex_length_le (n : Nat) (h : n < 16 ^ 32) : (lowerHex n).length ≤ 32 := by
  by_cases h0 : n = 0
  · subst h0; decide
  · rw [lowerHex, if_neg h0]
    have hb := Nat.base_pow_length_digits_le 16 n (by norm_num) h0
    have hlen : (Nat.digits 16 n).length ≤ 32 := by
      by_contra hlen
      push_neg at hlen
      have : (16:Nat) ^ 33 ≤ 16 ^ (Nat.digits 16 n).length :=
        Nat.pow_le_pow_right (by norm_num) hlen
      have h16 : 16 * n < 16 ^ 33 := by
        calc 16 * n < 16 * 16 ^ 32 := by omega
        _ = 16 ^ 33 := by ring
      omega
    simpa [String.length] using hlen

/-- C1: the claim says `refresh` succeeds on a present, unexpired,
unrevoked token and in particular accepts a freshly issued token before its
expiry.  The code does the opposite: the `ensure!` conditions in
`authorize_user_refresh_token` are inverted, so a token can only be
accepted when `expires_at < now` already holds (first conjunct), a freshly
issued live token presented well before its expiry is rejected with the
"token has expired" error and the handler answers 401 (second and third
conjuncts), while the same token presented after its expiry is accepted and
a fresh access token is minted (last conjunct). -/
theorem refresh_rejects_live_token :
    (∀ (db : RefreshStore) (h : HeaderMap) (now : Timestamp) (e : RefreshTokenEntry),
        authorize_user_refresh_token db h now = .ok e → e.expires_at < now) ∧
    authorize_user_refresh_token [sampleEntry] ⟨some (.text "Bearer rt1")⟩ 100
      = .error (.ensureFailed "token has expired") ∧
    refresh [sampleEntry] (JwtKey.fromSecret "s") ⟨some (.text "Bearer rt1")⟩ 100 false
      = .unauthorized ∧
    refresh [sampleEntry] (JwtKey.fromSecret "s") ⟨some (.text "Bearer rt1")⟩ 6000000 false
      = .success ((JwtKey.fromSecret "s").encode_user 0 3600 6000000) := by
  refine ⟨?_, rfl, rfl, rfl⟩
  intro db h now e hok
  unfold authorize_user_refresh_token at hok
  cases hx : extract_bearer_token h with
  | error err => rw [hx] at hok; simp at hok
  | ok token =>
    rw [hx] at hok
    dsimp only at hok
    cases hg : get_refresh_token_entry db token with
    | error err => rw [hg] at hok; simp at hok
    | ok entry =>
      rw [hg] at hok
      dsimp only at hok
      by_cases hlt : entry.expires_at < now
      · rw [if_neg (by simpa using hlt)] at hok
        cases hr : entry.revoked_at with
        | none =>
          rw [hr] at hok
          dsimp only at hok
          injection hok with he
          subst he; exact hlt
        | some r =>
          rw [hr] at hok
          dsimp only at hok
          by_cases hrn : r < now
          · rw [if_neg (by simpa using hrn)] at hok
            injection hok with he
            subst he; exact hlt
          · rw [if_pos (by simpa using hrn)] at hok; simp at hok
      · rw [if_pos hlt] at hok; simp at hok

/-- C2: the claim says that after `revoke(t)` every strictly later
`refresh(t)` fails with `Unauthorized`.  Counter-evaluation: the entry
`"rt2"` (expiry 100) is revoked at time 50 — the store row gets
`revoked_at = 50`, `updated_at = 50` and the handler answers 204 — yet a
`refresh` of the same token at the strictly later time 200 is accepted and
returns a fresh access token, because the inverted `ensure!` checks pass
exactly for an expired token whose revocation lies in the past. -/
theorem refresh_after_revoke_accepted :
    revoke [sampleEntry2] ⟨some (.text "Bearer rt2")⟩ 50 = (204, [sampleEntry2Revoked]) ∧
    refresh [sampleEntry2Revoked] (JwtKey.fromSecret "s") ⟨some (.text "Bearer rt2")⟩ 200 false
      = .success ((JwtKey.fromSecret "s").encode_user 0 3600 200) ∧
    refresh [sampleEntry2Revoked] (JwtKey.fromSecret "s") ⟨some (.text "Bearer rt2")⟩ 200 false
      ≠ .unauthorized := ⟨rfl, rfl, by decide⟩

/-- C3: decoding the access token produced by `encode_user u ttl` with
`decode_user` under the same key, at any instant strictly before its
expiry, yields exactly `u`. -/
theorem access_token_roundtrip (secret : String) (u : Uuid) (ttl : Int)
    (t0 t : Timestamp) (httl : 0 < ttl) (hbefore : t < t0 + ttl) :
    (JwtKey.fromSecret secret).decode_user t
      ((JwtKey.fromSecret secret).encode_user u ttl t0) = .ok u := by
  have hexp : ¬ (t0 + ttl ≤ t) := not_le.mpr hbefore
  simp [JwtKey.decode_user, JwtKey.decode, JwtKey.encode_user, JwtKey.fromSecret,
    JwtToken.hasClaim, hexp, Uuid.try_parse_render]

/-- Witness for C3 at secret `"k"`, uuid 42, ttl 3600, issued at 0,
decoded at 10. -/
theorem access_token_roundtrip_witness :
    (0:Int) < 3600 ∧ (10:Int) < 0 + 3600 ∧
    (JwtKey.fromSecret "k").decode_user 10
      ((JwtKey.fromSecret "k").encode_user 42 3600 0) = .ok 42 :=
  ⟨by norm_num, by norm_num,
    access_token_roundtrip "k" 42 3600 0 10 (by norm_num) (by norm_num)⟩

/-- C4: for a token carrying expiry `e`, `decode` fails at every instant
`now ≥ e` (whatever the rest of the token looks like), and succeeds at
every instant strictly before `e` provided the signature verifies, the
issuer is the fixed `"Chirpy"`, and the remaining required claims are
present. -/
theorem decode_expiry_boundary (secret : String) (t : JwtToken) (e now : Timestamp)
    (hexp : t.exp = some e) :
    (e ≤ now → ∀ c, (JwtKey.fromSecret secret).decode now t ≠ .ok c) ∧
    (t.alg = Alg.HS256 → t.mac_secret = secret → t.iss = some "Chirpy" →
      t.iat.isSome = true → t.sub.isSome = true → now < e →
      ∃ c, (JwtKey.fromSecret secret).decode now t = .ok c ∧ c.exp = e) := by
  obtain ⟨alg, exp, iss, iat, sub, sec⟩ := t
  dsimp only at hexp
  subst hexp
  constructor
  · intro hle c
    simp only [JwtKey.decode, JwtKey.fromSecret]
    split_ifs with h1 h2 h3 <;> try simp
    rcases iss with _ | i <;> rcases iat with _ | ia <;> rcases sub with _ | s <;> simp [hle]
  · intro halg hsec hiss hiat hsub hlt
    dsimp only at halg hsec hiss hiat hsub
    rcases iat with _ | ia
    · simp at hiat
    rcases sub with _ | s
    · simp at hsub
    subst halg; subst hsec; subst hiss
    exact ⟨⟨e, "Chirpy", ia, s⟩, by
      simp [JwtKey.decode, JwtKey.fromSecret, JwtToken.hasClaim, not_le.mpr hlt], rfl⟩

/-- Witness for C4: a concrete well-formed token with expiry 100 is
rejected at `now = 100` and accepted at `now = 99`. -/
theorem decode_expiry_boundary_witness :
    (∀ c, (JwtKey.fromSecret "k").decode 100
        ⟨Alg.HS256, some 100, some "Chirpy", some 0, some "0", "k"⟩ ≠ .ok c) ∧
    (∃ c, (JwtKey.fromSecret "k").decode 99
        ⟨Alg.HS256, some 100, some "Chirpy", some 0, some "0", "k"⟩ = .ok c ∧ c.exp = 100) :=
  ⟨(decode_expiry_boundary "k" ⟨Alg.HS256, some 100, some "Chirpy", some 0, some "0", "k"⟩
      100 100 rfl).1 (le_refl _),
   (decode_expiry_boundary "k" ⟨Alg.HS256, some 100, some "Chirpy", some 0, some "0", "k"⟩
      100 99 rfl).2 rfl rfl rfl rfl rfl (by norm_num)⟩

/-- C5: whatever `expires_in_seconds` the caller's request JSON carries
(deserialization drops the field and the handler fixes
`expires_in = Duration::hours(1)`), a successful login issues an access
token whose expiry is at least 3600 seconds after issuance. -/
theorem login_ttl_floor (users : List User) (db : RefreshStore) (key : JwtKey)
    (now : Timestamp) (j : LoginRequestJson) (a b : Nat) (iF eF : Bool)
    (u : User) (jwt : JwtToken) (rt : String) (db' : RefreshStore)
    (h : login users db key now (parse_login_payload j) a b iF eF = (.success u jwt rt, db')) :
    ∃ e, jwt.exp = some e ∧ now + 3600 ≤ e := by
  unfold login at h
  cases hu : get_user_by_email users (parse_login_payload j).email with
  | error err => rw [hu] at h; simp at h
  | ok user =>
    rw [hu] at h
    cases hv : user.verify (parse_login_payload j).password with
    | false => simp [hv] at h
    | true =>
      cases iF <;> cases eF <;> simp [hv, new_refresh_token, encode_user_result] at h
      obtain ⟨⟨hu', hjwt, hrt⟩, hdb⟩ := h
      subst hjwt
      exact ⟨now + 3600, rfl, le_refl _⟩

/-- Witness for C5: a login that explicitly requests
`expires_in_seconds = 10` still gets an expiry 3600 seconds out. -/
theorem login_ttl_floor_witness :
    ∃ e, ((JwtKey.fromSecret "k").encode_user 0 3600 0).exp = some e ∧ (0:Int) + 3600 ≤ e :=
  login_ttl_floor [sampleUser] [] (JwtKey.fromSecret "k") 0
    ⟨"alice@example.com", "pw", some 10⟩ 0 0 false false
    sampleUser ((JwtKey.fromSecret "k").encode_user 0 3600 0) (make_refresh_token 0 0)
    [⟨make_refresh_token 0 0, 0, 0, 0, 0 + 5184000, none⟩] rfl

/-- C6: the login response for an email unknown to the store is the very
same `(401, "Incorrect email or password")` value as the response for a
known email with a failing password, so a caller cannot tell which of the
two checks failed. -/
theorem login_error_indistinguishable (users : List User) (db : RefreshStore)
    (key : JwtKey) (now : Timestamp) (p1 p2 : LoginPayload) (a b : Nat)
    (iF eF : Bool) (u : User)
    (h1 : users.find? (fun x => x.email == p1.email) = none)
    (h2 : users.find? (fun x => x.email == p2.email) = some u)
    (h3 : u.verify p2.password = false) :
    (login users db key now p1 a b iF eF).1 = .failure 401 "Incorrect email or password" ∧
    (login users db key now p2 a b iF eF).1 = (login users db key now p1 a b iF eF).1 := by
  have hL1 : (login users db key now p1 a b iF eF).1
      = .failure 401 "Incorrect email or password" := by
    simp [login, get_user_by_email, h1]
  have hL2 : (login users db key now p2 a b iF eF).1
      = .failure 401 "Incorrect email or password" := by
    simp [login, get_user_by_email, h2, h3]
  exact ⟨hL1, hL2.trans hL1.symm⟩

/-- Witness for C6: unknown email `"nobody@example.com"` versus the sample
user with a wrong password. -/
theorem login_error_indistinguishable_witness :
    (login [sampleUser] [] (JwtKey.fromSecret "k") 0 ⟨"nobody@example.com", "x"⟩
        0 0 false false).1 = .failure 401 "Incorrect email or password" ∧
    (login [sampleUser] [] (JwtKey.fromSecret "k") 0 ⟨"alice@example.com", "wrong"⟩
        0 0 false false).1
      = (login [sampleUser] [] (JwtKey.fromSecret "k") 0 ⟨"nobody@example.com", "x"⟩
        0 0 false false).1 :=
  login_error_indistinguishable [sampleUser] [] (JwtKey.fromSecret "k") 0
    ⟨"nobody@example.com", "x"⟩ ⟨"alice@example.com", "wrong"⟩ 0 0 false false
    sampleUser rfl rfl rfl

/-- C7: `extract_bearer_token` returns the suffix after the literal
`"Bearer "` prefix when the `Authorization` header is present, valid text
and carries that prefix, and fails with the malformed-header error when the
header is absent, not valid text, or missing the prefix. -/
theorem extract_bearer_token_spec (h : HeaderMap) :
    (h.authorization = none → extract_bearer_token h = .error .missingAuthHeader) ∧
    (h.authorization = some .binary → extract_bearer_token h = .error .headerNotText) ∧
    (∀ rest : List Char, h.authorization = some (.text (String.mk ("Bearer ".data ++ rest))) →
        extract_bearer_token h = .ok (String.mk rest)) ∧
    (∀ s : String, h.authorization = some (.text s) →
        "Bearer ".data.isPrefixOf s.data = false →
        extract_bearer_token h = .error .malformedAuthHeader) := by
  refine ⟨?_, ?_, ?_, ?_⟩
  · intro ha; simp [extract_bearer_token, ha]
  · intro ha; simp [extract_bearer_token, ha]
  · intro rest ha
    have hpre : "Bearer ".data.isPrefixOf ("Bearer ".data ++ rest) = true :=
      List.isPrefixOf_iff_prefix.mpr (List.prefix_append _ _)
    simp only [extract_bearer_token, ha]
    rw [if_pos (by exact hpre)]
    rw [List.drop_left]
  · intro s ha hpre
    simp only [extract_bearer_token, ha]
    rw [if_neg (by simp [hpre])]

/-- Witness for C7: header `"Bearer abc"` yields `"abc"`; header
`"Token abc"` is malformed. -/
theorem extract_bearer_token_spec_witness :
    extract_bearer_token ⟨some (.text "Bearer abc")⟩ = .ok "abc" ∧
    extract_bearer_token ⟨some (.text "Token abc")⟩ = .error .malformedAuthHeader := by
  constructor
  · have h := (extract_bearer_token_spec ⟨some (.text "Bearer abc")⟩).2.2.1 "abc".data
      (by decide)
    rw [h]
  · exact (extract_bearer_token_spec ⟨some (.text "Token abc")⟩).2.2.2 "Token abc" rfl
      (by decide)

/-- Counterexample for C8: the rendered token is not a fixed-width string —
the draw `(0, 0)` renders as `"00"` (length 2) while the draw `(255, 0)`
renders as `"ff0"` (length 3). -/
theorem make_refresh_token_not_fixed_width :
    (make_refresh_token 0 0).length = 2 ∧ (make_refresh_token 255 0).length = 3 ∧
    (make_refresh_token 0 0).length ≠ (make_refresh_token 255 0).length := by
  have h2 : (make_refresh_token 0 0).length = 2 := rfl
  have h3 : (make_refresh_token 255 0).length = 3 := by
    rw [make_refresh_token, String.length_append]
    rw [lowerHex, if_neg (by norm_num)]
    rw [show Nat.digits 16 255 = [15, 15] from by norm_num]
    rfl
  exact ⟨h2, h3, by rw [h2, h3]; norm_num⟩

/-- C8 as amended: the token value is produced from a full 256-bit draw
(two `u128` values) and rendered as lowercase hex with no padding, so for
every possible draw the output consists only of hex digits and its length
lies between 2 and 64, varying with the draw rather than being fixed. -/
theorem make_refresh_token_hex_amended (a b : Nat) (ha : a < 2 ^ 128) (hb : b < 2 ^ 128) :
    (make_refresh_token a b).data.all isHexDigitChar = true ∧
    2 ≤ (make_refresh_token a b).length ∧ (make_refresh_token a b).length ≤ 64 := by
  have ha' : a < 16 ^ 32 := by norm_num at ha ⊢; omega
  have hb' : b < 16 ^ 32 := by norm_num at hb ⊢; omega
  refine ⟨?_, ?_, ?_⟩
  · rw [make_refresh_token, String.data_append, List.all_append,
      lowerHex_all_hex a, lowerHex_all_hex b]
    rfl
  · rw [make_refresh_token, String.length_append]
    have := lowerHex_length_pos a
    have := lowerHex_length_pos b
    omega
  · rw [make_refresh_token, String.length_append]
    have := lowerHex_length_le a ha'
    have := lowerHex_length_le b hb'
    omega

/-- Witness for C8's amended theorem at the draw `(255, 0)`. -/
theorem make_refresh_token_hex_amended_witness :
    (255:Nat) < 2 ^ 128 ∧ (0:Nat) < 2 ^ 128 ∧
    ((make_refresh_token 255 0).data.all isHexDigitChar = true ∧
     2 ≤ (make_refresh_token 255 0).length ∧ (make_refresh_token 255 0).length ≤ 64) :=
  ⟨by norm_num, by norm_num, make_refresh_token_hex_amended 255 0 (by norm_num) (by norm_num)⟩

/-- Counterexample for C9: when the store insert succeeds but access-token
encoding then fails, `login` answers the 401 error yet the freshly inserted
refresh-token entry stays in the store — an error return with something
persisted, contradicting the claim's "nothing persisted" error case. -/
theorem login_persists_entry_on_encode_failure :
    (login [sampleUser] [] (JwtKey.fromSecret "k") 0 ⟨"alice@example.com", "pw"⟩
        0 0 false true).1 = .failure 401 "Incorrect email or password" ∧
    (login [sampleUser] [] (JwtKey.fromSecret "k") 0 ⟨"alice@example.com", "pw"⟩
        0 0 false true).2 = [⟨make_refresh_token 0 0, 0, 0, 0, 0 + 5184000, none⟩] ∧
    (login [sampleUser] [] (JwtKey.fromSecret "k") 0 ⟨"alice@example.com", "pw"⟩
        0 0 false true).2 ≠ ([] : RefreshStore) := ⟨rfl, rfl, by decide⟩

/-- C9 as amended: a successful login returns the pair with exactly the new
refresh-token entry persisted; a failed login always returns the
undifferentiated 401 error with no access token, and leaves the store
unchanged except in the one branch where the insert succeeded and encoding
then failed, in which case the single inserted entry remains. -/
theorem login_atomicity_amended (users : List User) (db : RefreshStore) (key : JwtKey)
    (now : Timestamp) (payload : LoginPayload) (a b : Nat) (iF eF : Bool) :
    (∀ u jwt rt, (login users db key now payload a b iF eF).1 = .success u jwt rt →
       (login users db key now payload a b iF eF).2
         = db ++ [{ token := rt, created_at := now, updated_at := now,
                    user_id := u.id, expires_at := now + 5184000, revoked_at := none }]) ∧
    (∀ st body, (login users db key now payload a b iF eF).1 = .failure st body →
       st = 401 ∧ body = "Incorrect email or password" ∧
       ((login users db key now payload a b iF eF).2 = db ∨
        (eF = true ∧ iF = false ∧
         ∃ en, (login users db key now payload a b iF eF).2 = db ++ [en]))) := by
  cases hu : get_user_by_email users payload.email with
  | error err =>
    have hL : login users db key now payload a b iF eF
        = (.failure 401 "Incorrect email or password", db) := by simp [login, hu]
    constructor
    · intro u jwt rt h; rw [hL] at h; simp at h
    · intro st body h; rw [hL] at h
      replace h : LoginReply.failure 401 "Incorrect email or password" = .failure st body := h
      injection h with h1 h2
      exact ⟨h1.symm, h2.symm, Or.inl (by rw [hL])⟩
  | ok user =>
    cases hv : user.verify payload.password with
    | false =>
      have hL : login users db key now payload a b iF eF
          = (.failure 401 "Incorrect email or password", db) := by simp [login, hu, hv]
      constructor
      · intro u jwt rt h; rw [hL] at h; simp at h
      · intro st body h; rw [hL] at h
        replace h : LoginReply.failure 401 "Incorrect email or password" = .failure st body := h
        injection h with h1 h2
        exact ⟨h1.symm, h2.symm, Or.inl (by rw [hL])⟩
    | true =>
      cases iF with
      | true =>
        have hL : login users db key now payload a b true eF
            = (.failure 401 "Incorrect email or password", db) := by
          simp [login, hu, hv, new_refresh_token]
        constructor
        · intro u jwt rt h; rw [hL] at h; simp at h
        · intro st body h; rw [hL] at h
          replace h : LoginReply.failure 401 "Incorrect email or password" = .failure st body := h
          injection h with h1 h2
          exact ⟨h1.symm, h2.symm, Or.inl (by rw [hL])⟩
      | false =>
        cases eF with
        | true =>
          have hL : login users db key now payload a b false true
              = (.failure 401 "Incorrect email or password",
                 db ++ [{ token := make_refresh_token a b, created_at := now,
                          updated_at := now, user_id := user.id,
                          expires_at := now + 5184000, revoked_at := none }]) := by
            simp [login, hu, hv, new_refresh_token, encode_user_result]
          constructor
          · intro u jwt rt h; rw [hL] at h; simp at h
          · intro st body h; rw [hL] at h
            replace h : LoginReply.failure 401 "Incorrect email or password" = .failure st body := h
            injection h with h1 h2
            exact ⟨h1.symm, h2.symm, Or.inr ⟨rfl, rfl, _, by rw [hL]⟩⟩
        | false =>
          have hL : login users db key now payload a b false false
              = (.success user (key.encode_user user.id 3600 now) (make_refresh_token a b),
                 db ++ [{ token := make_refresh_token a b, created_at := now,
                          updated_at := now, user_id := user.id,
                          expires_at := now + 5184000, revoked_at := none }]) := by
            simp [login, hu, hv, new_refresh_token, encode_user_result]
          constructor
          · intro u jwt rt h; rw [hL] at h ⊢; simp at h ⊢
            obtain ⟨rfl, rfl, rfl⟩ := h
            simp
          · intro st body h; rw [hL] at h; simp at h

/-- Witness for C9's amended theorem: the success conjunct applied to a
concrete successful login. -/
theorem login_atomicity_amended_witness :
    (login [sampleUser] [] (JwtKey.fromSecret "k") 0 ⟨"alice@example.com", "pw"⟩
        0 0 false false).2
      = [] ++ [{ token := make_refresh_token 0 0, created_at := 0, updated_at := 0,
                 user_id := sampleUser.id, expires_at := 0 + 5184000, revoked_at := none }] :=
  (login_atomicity_amended [sampleUser] [] (JwtKey.fromSecret "k") 0
      ⟨"alice@example.com", "pw"⟩ 0 0 false false).1 sampleUser
    ((JwtKey.fromSecret "k").encode_user sampleUser.id 3600 0) (make_refresh_token 0 0) rfl

/-- C10: when the API key authorizes but the event is not exactly
`"user.upgraded"`, the webhook answers 204 and the users table is returned
unchanged — `make_user_red` is never reached and no `is_chirpy_red` flag
moves. -/
theorem polka_webhook_frame (users : List User) (req : PolkaReq)
    (h : req.event ≠ "user.upgraded") :
    polka_webhook users true req = (204, users) := by
  simp [polka_webhook, h]

/-- Witness for C10 at event `"user.downgraded"` against the sample user
table. -/
theorem polka_webhook_frame_witness :
    polka_webhook [sampleUser] true ⟨"user.downgraded", ⟨0⟩⟩ = (204, [sampleUser]) :=
  polka_webhook_frame [sampleUser] ⟨"user.downgraded", ⟨0⟩⟩ (by decide)

end Chirpy
